import Mathlib

/-!
Verification of the auth/session-reconciliation layer of the
Storiesbyfoot repository, as a shallow embedding in Lean 4.

The embedded code is:
* `src/context/AuthContext.tsx` — the Session Reconciler: the
  `onAuthStateChange` handler, `initializeAuth`, `fetchUserProfile`,
  `login`, `signup`, `logout`, `refreshUser`, and the derived flags
  `isAuthenticated` / `isAdmin`;
* a superseded copy of the same file whose `fetchUserProfile`
  re-throws unexpected error codes inside its own try block;
* three co-existing copies of the `ProtectedRoute` component
  (the Route Guard), one of which diverges on the
  session-present / profile-missing case.

Asynchrony: the handler suspends exactly once, at the Profile Store
read inside `fetchUserProfile`; everything before the await and
everything after it runs atomically on the single-threaded event loop.
We model a handler invocation run to completion as a pure function,
and separately give a small-step interleaving semantics (`stepSys`)
in which a session-present event starts a pending fetch and a
`resolve` step runs the fetch continuation plus the handler's
`finally` block, to settle the stale-fetch race claims.
-/

namespace StoriesByFoot

/-- Application-level profile row of the `users` table
(id, email, fullName, role, isActive, canWriteTestimonial);
`role` is the string stored in the row ("admin" or "user"). -/
structure User where
  id : String
  email : String
  fullName : String
  role : String
  isActive : Bool
  canWriteTestimonial : Bool
deriving Repr, DecidableEq

/-- Identity-provider session; the Reconciler only consumes
`session.user.id`, so we keep just the subject id. -/
structure Session where
  userId : String
deriving Repr, DecidableEq

/-- The Reconciler's in-memory state: the three React state cells
`user`, `session`, `isLoading` of `AuthProvider`. -/
structure AuthState where
  user : Option User
  session : Option Session
  isLoading : Bool
deriving Repr, DecidableEq

/-- Outcome of the Profile Store read
`supabase.from('users').select('*').eq('id', userId).single()`:
a row, a null body with no error, a typed error carrying a code
(PGRST116 = no row, 42501 = row-level-security denial, or any other),
or the awaited call itself throwing. -/
inductive FetchResult where
  | found (u : User)
  | nullData
  | errCode (code : String)
  | exn (msg : String)
deriving Repr, DecidableEq

/-- The try block of `fetchUserProfile` in `AuthContext.tsx`
(lines 92-141): every typed error branch — PGRST116, 42501, and the
catch-all "any other error" branch — logs, calls `setUser(null)` and
returns; a null body also yields `setUser(null)`; a row yields
`setUser(data)`. Only an exception from the awaited call escapes the
try block (`Except.error`). -/
def fetchUserProfileTry (r : FetchResult) (s : AuthState) : Except String AuthState :=
  match r with
  | .exn msg => .error msg
  | .errCode code =>
      if code = "PGRST116" then .ok { s with user := none }
      else if code = "42501" then .ok { s with user := none }
      else .ok { s with user := none }
  | .nullData => .ok { s with user := none }
  | .found u => .ok { s with user := some u }

/-- `fetchUserProfile` as its callers see it: the try block wrapped in
the catch handler, which logs the exception and calls `setUser(null)`.
The function always returns normally. -/
def fetchUserProfile (r : FetchResult) (s : AuthState) : AuthState :=
  match fetchUserProfileTry r s with
  | .ok t => t
  | .error _ => { s with user := none }

/-- The try block of the superseded copy's `fetchUserProfile`
(unnamed part, lines 86-151): identical except that the catch-all
"any other error" branch does `throw error` instead of returning. -/
def fetchUserProfileTryOld (r : FetchResult) (s : AuthState) : Except String AuthState :=
  match r with
  | .exn msg => .error msg
  | .errCode code =>
      if code = "PGRST116" then .ok { s with user := none }
      else if code = "42501" then .ok { s with user := none }
      else .error code
  | .nullData => .ok { s with user := none }
  | .found u => .ok { s with user := some u }

/-- The superseded copy's `fetchUserProfile` with its own catch block:
the re-thrown unexpected error is caught in the same function, logged,
and turned into `setUser(null)`, so this copy also always returns
normally. -/
def fetchUserProfileOld (r : FetchResult) (s : AuthState) : AuthState :=
  match fetchUserProfileTryOld r s with
  | .ok t => t
  | .error _ => { s with user := none }

/-- Classification of a Profile Store outcome as the profile value the
Reconciler ends up holding: only a Found row yields a profile. -/
def profileOf (r : FetchResult) : Option User :=
  match r with
  | .found u => some u
  | _ => none

/-- The `onAuthStateChange` handler run to completion
(`AuthContext.tsx` lines 47-84), given the event's session and the
Profile Store outcome of the fetch it triggers:
`setSession(session)`; if the session is non-null, `setIsLoading(true)`
then `await fetchUserProfile(session.user.id)`; else `setUser(null)`.
`fetchUserProfile` never throws, so the handler's catch block is
unreachable; the `finally` block always runs `setIsLoading(false)`. -/
def handleAuthChange (sess : Option Session) (r : FetchResult) (s : AuthState) : AuthState :=
  let s1 := { s with session := sess }
  let s2 :=
    match sess with
    | some _ => fetchUserProfile r { s1 with isLoading := true }
    | none => { s1 with user := none }
  { s2 with isLoading := false }

/-- Outcome of `supabase.auth.getSession()` during initialization:
either a (possibly null) restored session, or a throw. -/
inductive GetSessionResult where
  | ok (sess : Option Session)
  | exn (msg : String)
deriving Repr, DecidableEq

/-- The mount-time initialization routine of `AuthProvider`
(`AuthContext.tsx` lines 29-42): `setSession(data.session)`; if a
session was restored, await `fetchUserProfile`; the catch block only
logs; the `finally` block always runs `setIsLoading(false)`. -/
def initAuth (g : GetSessionResult) (r : FetchResult) (s : AuthState) : AuthState :=
  let s2 :=
    match g with
    | .ok sess =>
        let s1 := { s with session := sess }
        match sess with
        | some _ => fetchUserProfile r s1
        | none => s1
    | .exn _ => s
  { s2 with isLoading := false }

/-- `logout` (`AuthContext.tsx` lines 227-246): `await signOut()`, then
clear the state; the catch block clears the same state even when
sign-out throws. `signOutThrows` selects which branch runs. -/
def logout (signOutThrows : Bool) (s : AuthState) : AuthState :=
  if signOutThrows then
    { s with user := none, session := none, isLoading := false }
  else
    { s with user := none, session := none, isLoading := false }

/-- Outcome of `supabase.auth.signInWithPassword`: a typed error with a
message, a success with no session/user in the payload, a session, or a
throw. -/
inductive SignInResult where
  | err (msg : String)
  | okNoSession
  | ok (sess : Session)
  | exn (msg : String)
deriving Repr, DecidableEq

/-- `login` (`AuthContext.tsx` lines 161-195): returns the provider's
error message (or a fixed message) and never touches the React state
cells — the `onAuthStateChange` listener populates the profile. The
returned pair is (value of the `error` field, state after the call). -/
def login (r : SignInResult) (s : AuthState) : Option String × AuthState :=
  match r with
  | .err msg => (some (if msg = "" then "Unknown error" else msg), s)
  | .okNoSession => (some "Login succeeded but session was not created", s)
  | .ok _ => (none, s)
  | .exn _ => (some "An unexpected error occurred", s)

/-- Outcome of `supabase.auth.signUp`. -/
inductive SignUpResult where
  | err (msg : String)
  | okNoUser
  | ok (uid : String)
  | exn (msg : String)
deriving Repr, DecidableEq

/-- Outcome of the `users`-table insert performed by `signup`. -/
inductive InsertResult where
  | ok
  | err (msg : String)
deriving Repr, DecidableEq

/-- `signup` (`AuthContext.tsx` lines 197-225): creates the auth user,
then inserts the profile row
\x7bid, email, fullName, role:'user', isActive:true,
canWriteTestimonial:false\x7d into the `users` table. The Profile Store
is modelled as the list of its rows; the result is (value of the
`error` field, store after the call, state after the call). The React
state cells are never touched. -/
def signup (r : SignUpResult) (ins : InsertResult) (email fullName : String)
    (store : List User) (s : AuthState) : Option String × List User × AuthState :=
  match r with
  | .err msg => (some msg, store, s)
  | .okNoUser => (some "Failed to create user", store, s)
  | .exn _ => (some "An unexpected error occurred", store, s)
  | .ok uid =>
      match ins with
      | .err msg => (some msg, store, s)
      | .ok => (none, store ++ [⟨uid, email, fullName, "user", true, false⟩], s)

/-- `refreshUser` (`AuthContext.tsx` lines 300-304): if a session is
present, re-run `fetchUserProfile` for its subject; otherwise do
nothing. `env` gives the Profile Store outcome per subject id; the
second component counts Profile Store reads performed. -/
def refreshUser (env : String → FetchResult) (s : AuthState) : AuthState × Nat :=
  match s.session with
  | some sess => (fetchUserProfile (env sess.userId) s, 1)
  | none => (s, 0)

/-- The derived flag `isAuthenticated: !!session` of the context value
(`AuthContext.tsx` line 310). -/
def isAuthenticated (s : AuthState) : Bool :=
  s.session.isSome

/-- The derived flag `isAdmin: user?.role === 'admin'` of the context
value (`AuthContext.tsx` line 311). -/
def isAdmin (s : AuthState) : Bool :=
  match s.user with
  | some u => u.role == "admin"
  | none => false

/-- The `requiredRole` prop of `ProtectedRoute`: 'admin' | 'user',
optional. -/
inductive Role where
  | admin
  | user
deriving Repr, DecidableEq

/-- What a `ProtectedRoute` render produces: the auth-verifying
spinner, a redirect to "/", the divergent copy's "Setting up your
account..." spinner, or the protected children. -/
inductive RenderResult where
  | loadingPlaceholder
  | redirectHome
  | settingUpPlaceholder
  | content
deriving Repr, DecidableEq

/-- The current `ProtectedRoute` (unnamed part with the
"Verifying authentication..." spinner, lines 9-44): loading check
first, then authentication, then `requiredRole === 'admin' && !isAdmin`,
then `requiredRole === 'user' && !isAuthenticated`, else children. -/
def protectedRoute (requiredRole : Option Role) (s : AuthState) : RenderResult :=
  if s.isLoading then .loadingPlaceholder
  else if isAuthenticated s = false then .redirectHome
  else if requiredRole = some Role.admin ∧ isAdmin s = false then .redirectHome
  else if requiredRole = some Role.user ∧ isAuthenticated s = false then .redirectHome
  else .content

/-- The second co-existing `ProtectedRoute` copy (lines 9-35): same
guard sequence as the current copy, without the log calls. -/
def protectedRouteAlt (requiredRole : Option Role) (s : AuthState) : RenderResult :=
  if s.isLoading then .loadingPlaceholder
  else if isAuthenticated s = false then .redirectHome
  else if requiredRole = some Role.admin ∧ isAdmin s = false then .redirectHome
  else if requiredRole = some Role.user ∧ isAuthenticated s = false then .redirectHome
  else .content

/-- The divergent `ProtectedRoute` copy (lines 9-43): for
`requiredRole === 'user' && !user` it renders the
"Setting up your account..." spinner instead of the children. -/
def protectedRouteDivergent (requiredRole : Option Role) (s : AuthState) : RenderResult :=
  if s.isLoading then .loadingPlaceholder
  else if isAuthenticated s = false then .redirectHome
  else if requiredRole = some Role.admin ∧ isAdmin s = false then .redirectHome
  else if requiredRole = some Role.user ∧ s.user = none then .settingUpPlaceholder
  else .content

/-!
Interleaving semantics. A session-present event runs the handler up to
the Profile Store await inside `fetchUserProfile` and suspends there,
leaving a pending fetch; a null-session event has no await and runs
atomically; a resolve step runs a pending fetch's continuation (the
classification code of `fetchUserProfile`, i.e. the `setUser` call)
followed by the owning handler invocation's `finally` block
(`setIsLoading(false)`). `env` maps a subject id to what the Profile
Store returns for it.
-/

/-- A profile fetch whose Store read has been issued and not yet
resolved, tagged with the subject id it was issued for. -/
structure PendingFetch where
  userId : String
deriving Repr, DecidableEq

/-- The Reconciler state together with the in-flight fetches, in issue
order. -/
structure SysState where
  auth : AuthState
  pending : List PendingFetch
deriving Repr, DecidableEq

/-- One atomic step of the event loop: an `onAuthStateChange` delivery,
or the resolution of the i-th in-flight fetch. -/
inductive AStep where
  | ev (sess : Option Session)
  | resolve (i : Nat)
deriving Repr, DecidableEq

/-- Small-step transition. On `ev none`: `setSession(null)`,
`setUser(null)`, `finally setIsLoading(false)` — atomic. On
`ev (some sess)`: `setSession(sess)`, `setIsLoading(true)`, issue the
fetch, suspend. On `resolve i`: the i-th pending fetch's result is
classified exactly as `fetchUserProfile` classifies it, then the
handler's `finally` sets loading false. A `resolve` of a non-existent
index is a no-op. -/
def stepSys (env : String → FetchResult) (st : SysState) (a : AStep) : SysState :=
  match a with
  | .ev none =>
      { st with auth := { st.auth with session := none, user := none, isLoading := false } }
  | .ev (some sess) =>
      { auth := { st.auth with session := some sess, isLoading := true },
        pending := st.pending ++ [⟨sess.userId⟩] }
  | .resolve i =>
      match st.pending.get? i with
      | none => st
      | some pf =>
          { auth := { fetchUserProfile (env pf.userId) st.auth with isLoading := false },
            pending := st.pending.eraseIdx i }

/-- Run a sequence of atomic steps. -/
def runSys (env : String → FetchResult) (st : SysState) (steps : List AStep) : SysState :=
  steps.foldl (stepSys env) st

/-! Concrete fixtures for counterexamples and witnesses. -/

/-- A concrete profile row for subject uA. -/
def rowA : User := ⟨"uA", "a@ex.com", "User A", "user", true, false⟩

/-- A concrete profile row for subject uB. -/
def rowB : User := ⟨"uB", "b@ex.com", "User B", "user", true, false⟩

/-- A concrete elevated-role profile row for subject u1. -/
def adminRow : User := ⟨"u1", "a@x.com", "Admin A", "admin", true, false⟩

/-- Signed-out system state with nothing in flight. -/
def sys0 : SysState := ⟨⟨none, none, false⟩, []⟩

/-- A Profile Store holding rows for uA and uB and nothing else. -/
def envAB : String → FetchResult := fun uid =>
  if uid = "uA" then .found rowA
  else if uid = "uB" then .found rowB
  else .errCode "PGRST116"

/-! Helper lemmas. -/

/-- Every completed handler invocation leaves loading false. -/
theorem handleAuthChange_isLoading (sess : Option Session) (r : FetchResult)
    (s : AuthState) : (handleAuthChange sess r s).isLoading = false := rfl

/-- Folding handler invocations preserves a cleared loading flag. -/
theorem foldl_handle_isLoading (events : List (Option Session × FetchResult))
    (s : AuthState) (hs : s.isLoading = false) :
    (events.foldl (fun st e => handleAuthChange e.1 e.2 st) s).isLoading = false := by
  induction events generalizing s with
  | nil => simpa using hs
  | cons e es ih => exact ih _ (handleAuthChange_isLoading e.1 e.2 s)

/-! Claim theorems. -/

/-- C1: for every session-change event (sign-in, sign-out, token
refresh) and every fetch outcome (success, not-found, permission
denied, other error, or a thrown exception), the handler completes
with loading = false; the initialization routine always completes
with loading = false regardless of outcome; and after any sequence of
handler invocations each run to completion, loading is false. -/
theorem handler_always_clears_loading (sess : Option Session) (r : FetchResult)
    (s : AuthState) (g : GetSessionResult)
    (events : List (Option Session × FetchResult)) :
    (handleAuthChange sess r s).isLoading = false ∧
    (initAuth g r s).isLoading = false ∧
    (events.foldl (fun st e => handleAuthChange e.1 e.2 st)
        (handleAuthChange sess r s)).isLoading = false := by
  refine ⟨handleAuthChange_isLoading sess r s, rfl, ?_⟩
  exact foldl_handle_isLoading events _ (handleAuthChange_isLoading sess r s)

/-- C2: logout always results in user = null, session = null,
loading = false, for every prior state and for both the succeeding and
the throwing behaviour of the remote sign-out call. -/
theorem logout_always_clears_state (signOutThrows : Bool) (s : AuthState) :
    logout signOutThrows s = ⟨none, none, false⟩ := by
  cases signOutThrows <;> rfl

/-- C3: fetchUserProfile classifies every Profile Store outcome,
returns normally in every case (it is a total function into states,
with no escaping exception), sets user = null on every non-Found
outcome and user = the row on Found, and leaves session and loading
untouched; the superseded copy, whose catch-all branch re-throws into
its own catch handler, computes the same function. -/
theorem fetchProfile_total_classification (r : FetchResult) (s : AuthState) :
    fetchUserProfile r s = { s with user := profileOf r } ∧
    fetchUserProfileOld r s = fetchUserProfile r s := by
  cases r with
  | found u => exact ⟨rfl, rfl⟩
  | nullData => exact ⟨rfl, rfl⟩
  | exn msg => exact ⟨rfl, rfl⟩
  | errCode code =>
      by_cases h1 : code = "PGRST116" <;> by_cases h2 : code = "42501" <;>
        simp [fetchUserProfile, fetchUserProfileOld, fetchUserProfileTry,
          fetchUserProfileTryOld, profileOf, h1, h2]

/-- C4: while loading is true, all three Route Guard copies render the
loading placeholder for every combination of session, profile and
required role; no authentication or role check decides the output. -/
theorem guards_render_placeholder_while_loading (rr : Option Role)
    (u : Option User) (sess : Option Session) :
    protectedRoute rr ⟨u, sess, true⟩ = .loadingPlaceholder ∧
    protectedRouteAlt rr ⟨u, sess, true⟩ = .loadingPlaceholder ∧
    protectedRouteDivergent rr ⟨u, sess, true⟩ = .loadingPlaceholder :=
  ⟨rfl, rfl, rfl⟩

/-- C5: with loading false, a session present and no profile row, the
guard requiring the user role renders the protected content (session
presence suffices) and the guard requiring the admin role redirects
away; this holds in the current copy and its identical twin. -/
theorem session_without_profile_guard (sess : Session) :
    protectedRoute (some Role.user) ⟨none, some sess, false⟩ = .content ∧
    protectedRoute (some Role.admin) ⟨none, some sess, false⟩ = .redirectHome ∧
    protectedRouteAlt (some Role.user) ⟨none, some sess, false⟩ = .content ∧
    protectedRouteAlt (some Role.admin) ⟨none, some sess, false⟩ = .redirectHome :=
  ⟨rfl, rfl, rfl, rfl⟩

/-- The divergent superseded guard copy instead shows its
"Setting up your account" placeholder in the same state. -/
theorem session_without_profile_divergent_copy (sess : Session) :
    protectedRouteDivergent (some Role.user) ⟨none, some sess, false⟩
      = .settingUpPlaceholder ∧
    protectedRouteDivergent (some Role.admin) ⟨none, some sess, false⟩
      = .redirectHome :=
  ⟨rfl, rfl⟩

/-- C6: with loading false and a session present, the admin-only guard
renders the protected content exactly when the loaded profile's role
is the string admin, and redirects away for every other role string;
the isAdmin flag is precisely the role comparison. -/
theorem admin_guard_renders_iff_admin_role (sess : Session) (u : User) :
    protectedRoute (some Role.admin) ⟨some u, some sess, false⟩
      = (if u.role = "admin" then RenderResult.content else RenderResult.redirectHome) ∧
    isAdmin ⟨some u, some sess, false⟩ = (u.role == "admin") := by
  constructor
  · by_cases h : u.role = "admin" <;>
      simp [protectedRoute, isAdmin, isAuthenticated, h]
  · rfl

/-- C7 counterexample: a successful signup run does write the Profile
record: starting from an empty Profile Store, the store after the call
contains the inserted row, so the claim that the Profile record is not
written by the call itself is false. -/
theorem signup_writes_profile_row :
    (signup (SignUpResult.ok "u2") InsertResult.ok "b@x.com" "Bee" []
        ⟨none, none, false⟩).1 = none ∧
    (signup (SignUpResult.ok "u2") InsertResult.ok "b@x.com" "Bee" []
        ⟨none, none, false⟩).2.1 ≠ [] := by
  decide

/-- C7 amended: login and signup never mutate the Reconciler's local
state (user, session, loading) on any outcome — the session-change
path is the sole populator of the local profile — although signup on
success does insert the Profile record into the Profile Store. -/
theorem login_signup_leave_local_state (lr : SignInResult) (s : AuthState)
    (sr : SignUpResult) (ir : InsertResult) (email fullName : String)
    (store : List User) :
    (login lr s).2 = s ∧ (signup sr ir email fullName store s).2.2 = s := by
  constructor
  · cases lr <;> rfl
  · cases sr with
    | ok uid => cases ir <;> rfl
    | err msg => rfl
    | okNoUser => rfl
    | exn msg => rfl

/-- C8 counterexample: session-change to uA starts a fetch; a
null-session event is then processed (clearing user, session,
loading); when the stale fetch resolves afterwards it overwrites the
profile with uA's row, so the final state does not have profile null
although the null event was processed before the resolution. -/
theorem stale_fetch_overwrites_after_null_event :
    (runSys envAB sys0
        [AStep.ev (some ⟨"uA"⟩), AStep.ev none, AStep.resolve 0]).auth.user
      = some rowA ∧
    (runSys envAB sys0
        [AStep.ev (some ⟨"uA"⟩), AStep.ev none, AStep.resolve 0]).auth.session
      = none ∧
    ¬ (runSys envAB sys0
        [AStep.ev (some ⟨"uA"⟩), AStep.ev none, AStep.resolve 0]).auth.user
      = none := by
  decide

/-- C8 amended: immediately after the null-session event is handled,
profile is null, session is null and loading is false, whatever the
prior state and whatever fetches are still in flight; a stale fetch
resolving later may however overwrite the profile, as the code has no
cancellation token. -/
theorem null_event_immediately_clears (env : String → FetchResult) (st : SysState) :
    (stepSys env st (AStep.ev none)).auth.user = none ∧
    (stepSys env st (AStep.ev none)).auth.session = none ∧
    (stepSys env st (AStep.ev none)).auth.isLoading = false :=
  ⟨rfl, rfl, rfl⟩

/-- C9 counterexample: session A then session B fire before A's fetch
resolves; in the interleaving where B's fetch resolves first and A's
stale fetch resolves last, the terminal state keeps session B but
displays subject uA's profile, so the final profile is not keyed by
B's subject. -/
theorem out_of_order_resolution_keeps_stale_profile :
    (runSys envAB sys0
        [AStep.ev (some ⟨"uA"⟩), AStep.ev (some ⟨"uB"⟩),
         AStep.resolve 1, AStep.resolve 0]).auth.session = some ⟨"uB"⟩ ∧
    (runSys envAB sys0
        [AStep.ev (some ⟨"uA"⟩), AStep.ev (some ⟨"uB"⟩),
         AStep.resolve 1, AStep.resolve 0]).auth.user = some rowA ∧
    rowA.id ≠ "uB" := by
  decide

/-- C9 amended: when the two fetches resolve in the order they were
issued (A's before B's), the terminal state displays B's profile with
session B and loading false; the guarantee fails only for the
out-of-order resolution, which the code does not guard against. -/
theorem in_order_resolution_shows_latest_profile
    (env : String → FetchResult) (a b : Session) (pa pb : User) (au : AuthState)
    (ha : env a.userId = .found pa) (hb : env b.userId = .found pb) :
    (runSys env ⟨au, []⟩
        [AStep.ev (some a), AStep.ev (some b),
         AStep.resolve 0, AStep.resolve 0]).auth.user = some pb ∧
    (runSys env ⟨au, []⟩
        [AStep.ev (some a), AStep.ev (some b),
         AStep.resolve 0, AStep.resolve 0]).auth.session = some b ∧
    (runSys env ⟨au, []⟩
        [AStep.ev (some a), AStep.ev (some b),
         AStep.resolve 0, AStep.resolve 0]).auth.isLoading = false := by
  simp [runSys, stepSys, ha, hb, fetchUserProfile, fetchUserProfileTry,
    List.eraseIdx]

/-- Witness for the amended C9 theorem at a concrete store and pair of
sessions. -/
theorem in_order_resolution_witness :
    (runSys envAB ⟨⟨none, none, false⟩, []⟩
        [AStep.ev (some ⟨"uA"⟩), AStep.ev (some ⟨"uB"⟩),
         AStep.resolve 0, AStep.resolve 0]).auth.user = some rowB ∧
    (runSys envAB ⟨⟨none, none, false⟩, []⟩
        [AStep.ev (some ⟨"uA"⟩), AStep.ev (some ⟨"uB"⟩),
         AStep.resolve 0, AStep.resolve 0]).auth.session = some ⟨"uB"⟩ ∧
    (runSys envAB ⟨⟨none, none, false⟩, []⟩
        [AStep.ev (some ⟨"uA"⟩), AStep.ev (some ⟨"uB"⟩),
         AStep.resolve 0, AStep.resolve 0]).auth.isLoading = false :=
  in_order_resolution_shows_latest_profile envAB ⟨"uA"⟩ ⟨"uB"⟩ rowA rowB
    ⟨none, none, false⟩ (by decide) (by decide)

/-- C10: refreshUser with no current session performs no Profile Store
read and leaves the state unchanged. -/
theorem refreshUser_noop_without_session (env : String → FetchResult)
    (s : AuthState) (h : s.session = none) :
    refreshUser env s = (s, 0) := by
  unfold refreshUser
  rw [h]

/-- Witness for the refreshUser no-op theorem at a concrete state. -/
theorem refreshUser_noop_witness :
    refreshUser (fun _ => FetchResult.nullData) ⟨none, none, false⟩
      = (⟨none, none, false⟩, 0) :=
  refreshUser_noop_without_session (fun _ => FetchResult.nullData)
    ⟨none, none, false⟩ rfl

end StoriesByFoot
